import Mathlib

/-!
Verification development for the playwright-automation-framework recorder core.

The definitions below are a shallow embedding of the JavaScript sources:
  * src/core/recorder/selector-generator.js  (SelectorGenerator)
  * src/core/recorder/action-parser.js       (ActionParser)
  * src/scripts/process-manager.js           (PlaywrightRecorder)
  * src/electron-app/main.js                 (start-recording IPC handler)

Modelling conventions:
  * JavaScript strings are Lean `String`; lengths and substring operations are
    taken over characters (identical to UTF-16 units on the ASCII data that the
    theorems use).
  * A JavaScript value that may be `undefined` is an `Option`; the helpers
    `jsTruthyS` / `jsOrS` reproduce JavaScript truthiness for strings
    (both `undefined` and the empty string are falsy).
  * Fallible asynchronous page evaluations are `Except Unit` values; a thrown
    exception is `Except.error ()`.
  * Numeric confidence scores are exact rationals; the source only ever writes
    and compares decimal literals, so no floating-point rounding is observable.
  * Structures carry exactly the fields that the embedded functions read or
    write; fields of the source objects that no embedded function touches are
    omitted.
-/

namespace PWF

/-! ### JavaScript-style string helpers -/

/-- JavaScript truthiness of a possibly-undefined string:
`undefined` and `""` are falsy. -/
def jsTruthyS : Option String → Bool
  | none => false
  | some s => s ≠ ""

/-- JavaScript `a || d` for a possibly-undefined string `a`. -/
def jsOrS (o : Option String) (d : String) : String :=
  match o with
  | none => d
  | some s => if s = "" then d else s

/-- Template-literal interpolation of a possibly-undefined string:
JavaScript renders `undefined` as the text "undefined". -/
def interpOptStr : Option String → String
  | none => "undefined"
  | some s => s

/-- Whitespace recognised by `String.prototype.trim` (ASCII fragment). -/
def isWsChar (c : Char) : Bool :=
  c == ' ' || c == '\t' || c == '\n' || c == '\r'

/-- `String.prototype.trim`. -/
def jsTrim (s : String) : String :=
  String.mk (((s.toList.dropWhile isWsChar).reverse.dropWhile isWsChar).reverse)

/-- Split a character list at every occurrence of the separator character,
as JavaScript `split` with a one-character separator does (empty pieces kept). -/
def splitCharAux (sep : Char) : List Char → List Char → List String
  | [], acc => [String.mk acc.reverse]
  | c :: rest, acc =>
      if c == sep then String.mk acc.reverse :: splitCharAux sep rest []
      else splitCharAux sep rest (c :: acc)

/-- JavaScript `s.split(sep)` for a single-character separator. -/
def jsSplit (s : String) (sep : Char) : List String :=
  splitCharAux sep s.toList []

/-- JavaScript `Array.prototype.join(sep)`. -/
def jsJoin (sep : String) : List String → String
  | [] => ""
  | [x] => x
  | x :: rest => x ++ sep ++ jsJoin sep rest

/-- JavaScript `s.substring(0, n)` (character based). -/
def jsTake (s : String) (n : Nat) : String :=
  String.mk (s.toList.take n)

/-- Case-insensitive lowering of an ASCII string (for the `/i` regex flags). -/
def jsLower (s : String) : String :=
  String.mk (s.toList.map Char.toLower)

/-- Whether `p` is an initial segment of `l`. -/
def startsChars : List Char → List Char → Bool
  | [], _ => true
  | _ :: _, [] => false
  | p :: ps, c :: cs => p == c && startsChars ps cs

/-- JavaScript `s.startsWith(p)`. -/
def jsStarts (s p : String) : Bool :=
  startsChars p.toList s.toList

/-! ### Character classes used by the regular expressions of the source -/

def isDigitChar (c : Char) : Bool := c ≥ '0' && c ≤ '9'

/-- `[a-f0-9]` with the `/i` flag, i.e. a hexadecimal digit of either case. -/
def isHexCharCI (c : Char) : Bool :=
  isDigitChar c || (c ≥ 'a' && c ≤ 'f') || (c ≥ 'A' && c ≤ 'F')

def isUpperChar (c : Char) : Bool := c ≥ 'A' && c ≤ 'Z'

def isAlphaChar (c : Char) : Bool :=
  (c ≥ 'a' && c ≤ 'z') || isUpperChar c

def isAlnumChar (c : Char) : Bool := isAlphaChar c || isDigitChar c

/-- `\w`: word character `[A-Za-z0-9_]`. -/
def isWordChar (c : Char) : Bool := isAlnumChar c || c == '_'

/-! ### Regular expressions of `isStableId` (selector-generator.js 333-344) -/

/-- `/^[a-f0-9]{8,}$/i` — long hex strings. -/
def reLongHex (s : String) : Bool :=
  decide (s.length ≥ 8) && s.toList.all isHexCharCI

/-- `/^\d+$/` — pure numbers. -/
def rePureNumber (s : String) : Bool :=
  decide (s.length ≥ 1) && s.toList.all isDigitChar

/-- The framework-generated pattern: a case-insensitive `react-`, `vue-` or
`ng-` at the start of the id. -/
def reFramework (s : String) : Bool :=
  jsStarts (jsLower s) "react-" || jsStarts (jsLower s) "vue-" ||
    jsStarts (jsLower s) "ng-"

/-- `/_\d+$/` — ending with underscore + number. -/
def reUnderscoreNum (s : String) : Bool :=
  let r := s.toList.reverse
  let ds := r.takeWhile isDigitChar
  decide (ds ≠ []) && ((r.drop ds.length).head? == some '_')

/-- `/^generated/i` — starting with the word generated. -/
def reGenerated (s : String) : Bool :=
  jsStarts (jsLower s) "generated"

/-- `SelectorGenerator.isStableId` (selector-generator.js 333-344):
an id is stable iff it matches none of the unstable patterns. -/
def isStableId (id : String) : Bool :=
  !(reLongHex id || rePureNumber id || reFramework id ||
      reUnderscoreNum id || reGenerated id)

/-! ### Regular expressions of `getStableClasses` (selector-generator.js 346-361) -/

/-- `/^\w+_\w+_[a-f0-9]+$/i` — CSS-modules pattern: the string decomposes as
nonempty word block, underscore, nonempty word block, underscore, nonempty hex
suffix (`\w` includes the underscore, so any two underscore positions with an
all-hex remainder witness a match). -/
def reCssModules (s : String) : Bool :=
  let l := s.toList
  (List.range l.length).any fun i =>
    (List.range l.length).any fun j =>
      decide (0 < i) && decide (i + 1 < j) && decide (j + 1 < l.length) &&
        (l.get? i == some '_') && (l.get? j == some '_') &&
        ((l.take i).all isWordChar) &&
        (((l.drop (i + 1)).take (j - i - 1)).all isWordChar) &&
        ((l.drop (j + 1)).all isHexCharCI)

/-- `/^css-[a-f0-9]+$/i` — Emotion / styled-components class names. -/
def reEmotion (s : String) : Bool :=
  jsStarts (jsLower s) "css-" &&
    decide (s.length > 4) && (s.toList.drop 4).all isHexCharCI

/-- `/^[A-Z][a-zA-Z0-9]{10,}$/` — long PascalCase (likely generated). -/
def rePascal (s : String) : Bool :=
  match s.toList with
  | [] => false
  | c :: rest => isUpperChar c && decide (rest.length ≥ 10) && rest.all isAlnumChar

/-- `/^\d/` — starting with a number. -/
def reLeadingDigit (s : String) : Bool :=
  match s.toList with
  | [] => false
  | c :: _ => isDigitChar c

/-- `SelectorGenerator.getStableClasses` (selector-generator.js 346-361). -/
def getStableClasses (classString : String) : List String :=
  let classes := (jsSplit classString ' ').filter (fun c => c ≠ "")
  classes.filter fun className =>
    !(reLongHex className || reCssModules className || reEmotion className ||
        rePascal className || reLeadingDigit className)

/-- `SelectorGenerator.escapeText` (selector-generator.js 363-366):
escape double quotes and newlines, then trim. -/
def escapeText (text : String) : String :=
  jsTrim (String.mk (text.toList.flatMap fun c =>
    if c == '"' then ['\\', '"']
    else if c == '\n' then ['\\', 'n']
    else [c]))

/-- Model of the `CSS.escape` web API on the fragment of inputs the recorder
meets: identifier characters are kept, a leading digit gets a code-point
escape, anything else gets a character escape. -/
def cssEscape (s : String) : String :=
  match s.toList with
  | [] => ""
  | c :: rest =>
    let escTail := rest.flatMap fun d =>
      if isWordChar d || d == '-' then [d] else ['\\', d]
    let head :=
      if isDigitChar c then '\\' :: '3' :: c :: [' ']
      else if isWordChar c || c == '-' then [c]
      else ['\\', c]
    String.mk (head ++ escTail)

/-! ### Element descriptor (selector-generator.js `getElementInfo`, 57-97)

`getElementInfo` snapshots the element inside one `page.evaluate`; every field
is defaulted to the empty string / empty map when absent, so all fields are
total here.  Only the fields read by the selector strategies and by
`generateCompositeSelector` are modelled. -/

structure ElementInfo where
  tagName : String := ""
  id : String := ""
  className : String := ""
  textContent : String := ""
  innerText : String := ""
  value : String := ""
  placeholder : String := ""
  type : String := ""
  name : String := ""
  role : String := ""
  ariaLabel : String := ""
  attributes : List (String × String) := []
  index : Int := 0
deriving Repr, DecidableEq

/-- Lookup in the attribute map built by `getElementInfo` (keys unique). -/
def lookupAttr (attrs : List (String × String)) (k : String) : Option String :=
  (attrs.find? fun p => p.1 == k).map (·.2)

/-- A candidate produced by one selector strategy: the `selector`, `type` and
`confidence` fields that `generateSelector` reads back. -/
structure Candidate where
  selector : String
  type : String
  confidence : ℚ
deriving Repr, DecidableEq

/-- The value returned by `generateSelector`. -/
structure SelResult where
  primary : String
  type : String
  confidence : ℚ
  fallbacks : List Candidate
deriving Repr, DecidableEq

/-- Default preferred attributes (selector-generator.js 4). -/
def preferredAttributes : List String := ["data-testid", "data-test", "data-cy", "id"]

/-- Default `maxTextLength` option (selector-generator.js 7). -/
def maxTextLength : Nat := 30

/-- The scan of `generateTestIdSelector` over the preferred-attribute list:
the first attribute with a truthy value wins. -/
def testIdScan (info : ElementInfo) : List String → Option Candidate
  | [] => none
  | attr :: rest =>
    match lookupAttr info.attributes attr with
    | some v =>
      if v ≠ "" then
        some { selector := "[" ++ attr ++ "=\"" ++ v ++ "\"]",
               type := "data-attribute", confidence := 0.9 }
      else testIdScan info rest
    | none => testIdScan info rest

/-- `SelectorGenerator.generateTestIdSelector` (selector-generator.js 99-112):
first preferred attribute with a truthy value wins, confidence 0.9. -/
def generateTestIdSelector (info : ElementInfo) : Option Candidate :=
  testIdScan info preferredAttributes

/-- `SelectorGenerator.generateIdSelector` (selector-generator.js 114-124). -/
def generateIdSelector (info : ElementInfo) : Option Candidate :=
  if info.id ≠ "" && isStableId info.id then
    some { selector := "#" ++ cssEscape info.id, type := "id", confidence := 0.8 }
  else none

/-- `SelectorGenerator.generateNameSelector` (selector-generator.js 126-136). -/
def generateNameSelector (info : ElementInfo) : Option Candidate :=
  if info.name ≠ "" && ["input", "select", "textarea"].contains info.tagName then
    some { selector := info.tagName ++ "[name=\"" ++ info.name ++ "\"]",
           type := "name", confidence := 0.7 }
  else none

/-- `SelectorGenerator.generateRoleSelector` (selector-generator.js 138-164). -/
def generateRoleSelector (info : ElementInfo) : Option Candidate :=
  if info.role ≠ "" then
    let base := "[role=\"" ++ info.role ++ "\"]"
    if info.ariaLabel ≠ "" then
      some { selector := base ++ "[aria-label=\"" ++ info.ariaLabel ++ "\"]",
             type := "role", confidence := 0.6 }
    else if info.textContent ≠ "" && info.textContent.length ≤ maxTextLength then
      some { selector := base ++ ":has-text(\"" ++ escapeText info.textContent ++ "\")",
             type := "role-text", confidence := 0.75 }
    else
      some { selector := base, type := "role", confidence := 0.6 }
  else none

/-- `SelectorGenerator.generateTextSelector` (selector-generator.js 166-200). -/
def generateTextSelector (info : ElementInfo) : Option Candidate :=
  let text := jsOrS (some info.textContent) (jsOrS (some info.innerText) info.value)
  if text ≠ "" && text.length > 0 && text.length ≤ maxTextLength then
    if ["button", "a", "label", "span"].contains info.tagName then
      some { selector := info.tagName ++ ":has-text(\"" ++ escapeText text ++ "\")",
             type := "text", confidence := 0.65 }
    else
      some { selector := ":has-text(\"" ++ escapeText text ++ "\")",
             type := "text", confidence := 0.5 }
  else if info.placeholder ≠ "" && ["input", "textarea"].contains info.tagName then
    some { selector := info.tagName ++ "[placeholder=\"" ++ info.placeholder ++ "\"]",
           type := "placeholder", confidence := 0.6 }
  else none

/-- `SelectorGenerator.generateCssSelector` (selector-generator.js 202-230):
always produces a candidate. -/
def generateCssSelector (info : ElementInfo) : Candidate :=
  let parts := [info.tagName]
  let parts :=
    if info.className ≠ "" then
      let stable := getStableClasses info.className
      if stable.length > 0 then parts ++ ["." ++ jsJoin "." stable] else parts
    else parts
  let parts :=
    if info.type ≠ "" && info.tagName == "input" then
      parts ++ ["[type=\"" ++ info.type ++ "\"]"]
    else parts
  { selector := jsJoin "" parts, type := "css", confidence := 0.4 }

/-- `SelectorGenerator.generateXPathSelector` (selector-generator.js 232-259):
always produces a candidate. -/
def generateXPathSelector (info : ElementInfo) : Candidate :=
  let conditions : List String :=
    (if info.id ≠ "" then ["@id=\"" ++ info.id ++ "\""] else []) ++
    (if info.className ≠ "" then
       ["contains(@class, \"" ++ jsOrS ((jsSplit info.className ' ').head?) "undefined" ++ "\")"]
     else []) ++
    (if info.textContent ≠ "" && info.textContent.length ≤ maxTextLength then
       ["contains(text(), \"" ++ escapeText info.textContent ++ "\")"]
     else [])
  let xp := "//" ++ info.tagName ++
    (if conditions.length > 0 then "[" ++ jsJoin " and " conditions ++ "]" else "")
  { selector := "xpath=" ++ xp, type := "xpath", confidence := 0.3 }

/-! ### The live page, as seen by one `generateSelector` call

The page is opaque to the generator: it only answers
`page.locator(sel).all()` (which may throw), the identity evaluation
`page.evaluate(([o, f]) => o === f, ...)` (which may throw; when it returns it
returns whether the two handles denote the same element), `getElementInfo`
(one `page.evaluate`, may throw) and `getElementIndex` (one `page.evaluate`,
may throw).  Elements are identified by numeric handles; the page is assumed
not to mutate during the single call being modelled. -/

structure PageModel where
  /-- Result of the `getElementInfo` evaluation for the target element. -/
  info : Except Unit ElementInfo
  /-- Identity of the original element handle. -/
  origId : Nat
  /-- `page.locator(sel).all()`: throws, or returns the matching handles. -/
  locatorAll : String → Except Unit (List Nat)
  /-- Whether the `original === found` evaluation throws for this found handle. -/
  identityEvalFails : Nat → Bool
  /-- Result of the `getElementIndex` evaluation (selector-generator.js 326-331). -/
  indexEval : Except Unit Int

/-- `SelectorGenerator.validateSelector` (selector-generator.js 304-324):
resolve the candidate, demand exactly one match, then demand reference
identity with the original handle; any thrown evaluation yields `false`. -/
def validateSelector (m : PageModel) (c : Candidate) : Bool :=
  match m.locatorAll c.selector with
  | .error _ => false
  | .ok elems =>
    match elems with
    | [found] =>
      if m.identityEvalFails found then false
      else decide (found = m.origId)
    | _ => false

/-- The strategy list of `generateSelector` (selector-generator.js 19-27),
in source order. -/
def strategyCandidates (info : ElementInfo) : List (Option Candidate) :=
  [generateTestIdSelector info,
   generateIdSelector info,
   generateNameSelector info,
   generateRoleSelector info,
   generateTextSelector info,
   some (generateCssSelector info),
   some (generateXPathSelector info)]

/-- The strategy loop of `generateSelector` (selector-generator.js 29-42):
the first candidate that passes validation is returned. -/
def firstValidated (m : PageModel) : List (Option Candidate) → Option Candidate
  | [] => none
  | none :: rest => firstValidated m rest
  | some c :: rest =>
    if validateSelector m c then some c else firstValidated m rest

/-- The fallback loop of `generateFallbacks` (selector-generator.js 291-299):
keep validated candidates different from the primary, stopping at two. -/
def pickFallbacks (m : PageModel) (primarySel : String) :
    List (Option Candidate) → Nat → List Candidate
  | [], _ => []
  | none :: rest, n => pickFallbacks m primarySel rest n
  | some c :: rest, n =>
    if c.selector ≠ primarySel && validateSelector m c then
      if n + 1 ≥ 2 then [c]
      else c :: pickFallbacks m primarySel rest (n + 1)
    else pickFallbacks m primarySel rest n

/-- `SelectorGenerator.generateFallbacks` (selector-generator.js 280-302):
re-extracts the element info (which may throw) and tries XPath, CSS and text
fallback strategies. -/
def generateFallbacks (m : PageModel) (primarySel : String) :
    Except Unit (List Candidate) :=
  match m.info with
  | .error e => .error e
  | .ok info =>
    .ok (pickFallbacks m primarySel
      [some (generateXPathSelector info),
       some (generateCssSelector info),
       generateTextSelector info] 0)

/-- `SelectorGenerator.generateCompositeSelector` (selector-generator.js
261-278): tag + type + name + nth-of-type position, returned unvalidated. -/
def generateCompositeSelector (info : ElementInfo) : SelResult :=
  let attrs : List String :=
    (if info.tagName ≠ "" then [info.tagName] else []) ++
    (if info.type ≠ "" then ["[type=\"" ++ info.type ++ "\"]"] else []) ++
    (if info.name ≠ "" then ["[name=\"" ++ info.name ++ "\"]"] else [])
  { primary := jsJoin "" attrs ++ ":nth-of-type(" ++ toString (info.index + 1) ++ ")",
    type := "composite", confidence := 0.2, fallbacks := [] }

/-- The `try` block of `SelectorGenerator.generateSelector`
(selector-generator.js 14-45): extract the element info, walk the strategies
and return the first validated candidate with its fallbacks, or the composite
selector; any thrown evaluation surfaces as an error. -/
def generateSelectorTry (m : PageModel) : Except Unit SelResult :=
  match m.info with
  | .error e => .error e
  | .ok info =>
    match firstValidated m (strategyCandidates info) with
    | some c =>
      match generateFallbacks m c.selector with
      | .error e => .error e
      | .ok fbs =>
        .ok { primary := c.selector, type := c.type,
              confidence := c.confidence, fallbacks := fbs }
    | none => .ok (generateCompositeSelector info)

/-- `SelectorGenerator.generateSelector` (selector-generator.js 13-55): run
the `try` block; on a thrown error the `catch` block builds the
XPath-by-position fallback — whose own `getElementIndex` evaluation can
itself throw, in which case the error leaves the function. -/
def generateSelector (m : PageModel) : Except Unit SelResult :=
  match generateSelectorTry m with
  | .ok r => .ok r
  | .error _ =>
    match m.indexEval with
    | .ok idx =>
      .ok { primary := "xpath=//body//*[position()=" ++ toString idx ++ "]",
            type := "xpath", confidence := 0.1, fallbacks := [] }
    | .error e => .error e

/-! ### Action records (action-parser.js)

The parser operates on loose JavaScript objects.  The fields below are the
ones the pipeline reads; a missing field is `none` (or the empty list for the
array-valued ones).  An action's `selector` is either the selector-result
object (of which the pipeline only ever reads `.primary`) or, on the synthetic
wait records the parser itself creates, a plain string. -/

/-- The value stored in an action's `selector` field. -/
inductive SelVal where
  | obj (primary : String)
  | str (s : String)
deriving Repr, DecidableEq

/-- JavaScript truthiness of a possibly-undefined selector value: an object is
always truthy, a string is truthy iff nonempty. -/
def jsTruthySel : Option SelVal → Bool
  | none => false
  | some (.obj _) => true
  | some (.str s) => s ≠ ""

/-- `selector?.primary`: reading `.primary` off a plain string gives
`undefined`. -/
def primaryOf : Option SelVal → Option String
  | some (.obj p) => some p
  | _ => none

/-- Template-literal interpolation of a whole selector value:
`undefined` renders as "undefined", an object as "[object Object]". -/
def interpSelVal : Option SelVal → String
  | none => "undefined"
  | some (.str s) => s
  | some (.obj _) => "[object Object]"

/-- The `parent` sub-object of a recorded element descriptor. -/
structure ParentDesc where
  tagName : Option String := none
  className : Option String := none
  id : Option String := none
deriving Repr, DecidableEq

/-- The element descriptor attached to an action record, with the fields the
parser reads. -/
structure ElemDesc where
  tagName : Option String := none
  textContent : Option String := none
  name : Option String := none
  id : Option String := none
  attributes : List (String × String) := []
  parent : Option ParentDesc := none
deriving Repr, DecidableEq

/-- An element of a navigation action's `expectedElements` annotation
(action-parser.js 310-317). -/
structure ExpectedElem where
  selector : Option String
  type : String
deriving Repr, DecidableEq

/-- The scalar fields of an action record. -/
structure ActionData where
  type : String := ""
  selector : Option SelVal := none
  element : Option ElemDesc := none
  timestamp : Int := 0
  url : Option String := none
  value : Option String := none
  key : Option String := none
  strategy : Option String := none
  timeout : Option Int := none
  description : Option String := none
  expectedElements : List ExpectedElem := []
deriving Repr, DecidableEq

/-- An action record: scalar fields plus the nested `actions` array that a
`form_sequence` composite carries. -/
inductive Action where
  | mk (data : ActionData) (subActions : List Action)
deriving Repr

/-- Scalar fields of an action. -/
def Action.data : Action → ActionData
  | .mk d _ => d

/-- The nested `actions` array (empty on non-composite records). -/
def Action.subActions : Action → List Action
  | .mk _ s => s

/-- `ActionParser.isFormElement` (action-parser.js 120-125). -/
def isFormElement : Option ElemDesc → Bool
  | none => false
  | some e =>
    (match e.tagName with
     | some t => ["input", "select", "textarea", "button"].contains t
     | none => false) ||
    (lookupAttr e.attributes "type" == some "submit")

/-- `ActionParser.isSubmitButton` (action-parser.js 216-224). -/
def isSubmitButton : Option ElemDesc → Bool
  | none => false
  | some e =>
    (lookupAttr e.attributes "type" == some "submit") ||
    (e.tagName == some "button" && !jsTruthyS (lookupAttr e.attributes "type")) ||
    (e.tagName == some "button" && lookupAttr e.attributes "type" == some "submit")

/-- The pair patterns dropped by `removeRedundantActions`
(action-parser.js 37-53): consecutive click/click, input/input or hover/click
on the same `selector?.primary`. -/
def isRedundantPair (current nxt : Action) : Bool :=
  (current.data.type == "click" && nxt.data.type == "click" &&
     primaryOf current.data.selector == primaryOf nxt.data.selector) ||
  (current.data.type == "input" && nxt.data.type == "input" &&
     primaryOf current.data.selector == primaryOf nxt.data.selector) ||
  (current.data.type == "hover" && nxt.data.type == "click" &&
     primaryOf current.data.selector == primaryOf nxt.data.selector)

/-- `ActionParser.removeRedundantActions` (action-parser.js 30-59): each
action is kept unless it forms a redundant pair with its immediate successor. -/
def removeRedundantActions : List Action → List Action
  | [] => []
  | a :: rest =>
    match rest with
    | [] => [a]
    | b :: _ =>
      if isRedundantPair a b then removeRedundantActions rest
      else a :: removeRedundantActions rest

/-- `ActionParser.generateFormDescription` (action-parser.js 127-136). -/
def generateFormDescription (formActions : List Action) : String :=
  let fieldCount := (formActions.filter fun a => a.data.type == "input").length
  let hasSubmit := formActions.any fun a =>
    a.data.type == "click" &&
      (match a.data.element with
       | some e => (lookupAttr e.attributes "type" == some "submit") ||
           (e.tagName == some "button")
       | none => false)
  let base := "Fill form with " ++ toString fieldCount ++ " field" ++
    (if fieldCount ≠ 1 then "s" else "")
  if hasSubmit then base ++ " and submit" else base

/-- `ActionParser.finalizeGroup` (action-parser.js 106-118): a form group of
more than one action is folded into a single `form_sequence` composite. -/
def finalizeGroup (group : List Action) (groupType : Option String) : List Action :=
  if groupType == some "form" && group.length > 1 then
    [Action.mk
      { type := "form_sequence",
        timestamp := (match group with | a :: _ => a.data.timestamp | [] => 0),
        description := some (generateFormDescription group) }
      group]
  else group

/-- The loop body of `ActionParser.groupSequentialActions`
(action-parser.js 61-104), threading the `grouped` output, the open
`currentGroup` and its `currentGroupType` (`none` models `null`). -/
def groupSeqGo : List Action → List Action → List Action → Option String → List Action
  | [], grouped, cur, curType =>
    if cur.length > 0 then grouped ++ finalizeGroup cur curType else grouped
  | a :: rest, grouped, cur, curType =>
    if (["input", "select", "click"].contains a.data.type) && isFormElement a.data.element then
      if curType ≠ some "form" then
        let grouped2 := if cur.length > 0 then grouped ++ finalizeGroup cur curType else grouped
        groupSeqGo rest grouped2 [a] (some "form")
      else
        groupSeqGo rest grouped (cur ++ [a]) curType
    else if a.data.type == "navigation" then
      let grouped2 := if cur.length > 0 then grouped ++ finalizeGroup cur curType else grouped
      groupSeqGo rest (grouped2 ++ [a]) [] none
    else
      if curType.isSome && curType ≠ some "general" then
        groupSeqGo rest (grouped ++ finalizeGroup cur curType) [a] (some "general")
      else
        groupSeqGo rest grouped (cur ++ [a]) (some "general")

/-- `ActionParser.groupSequentialActions` (action-parser.js 61-104). -/
def groupSequentialActions (actions : List Action) : List Action :=
  groupSeqGo actions [] [] none

/-- The object returned by `determineWaitStrategy`; its `url` field is
dropped again when the wait record is built (action-parser.js 150-156). -/
structure WaitStrategy where
  type : String
  selector : Option String := none
  timeout : Int
  url : Option String := none
deriving Repr, DecidableEq

/-- Default `minWaitTime` option (action-parser.js 7). -/
def minWaitTime : Int := 100

/-- Default `maxWaitTime` option (action-parser.js 8). -/
def maxWaitTime : Int := 5000

/-- `ActionParser.determineWaitStrategy` (action-parser.js 163-214). -/
def determineWaitStrategy (current : Action) (next : Option Action) :
    Option WaitStrategy :=
  match next with
  | none => none
  | some nxt =>
    let timeDiff := nxt.data.timestamp - current.data.timestamp
    if current.data.type == "navigation" then
      some { type := "networkidle", timeout := 5000 }
    else if current.data.type == "click" && nxt.data.type == "navigation" then
      some { type := "navigation", timeout := 10000 }
    else if current.data.type == "click" && timeDiff > minWaitTime &&
        jsTruthySel nxt.data.selector then
      some { type := "visible", selector := primaryOf nxt.data.selector,
             timeout := min (timeDiff * 2) maxWaitTime }
    else if current.data.type == "click" && isSubmitButton current.data.element then
      some { type := "networkidle", timeout := 10000 }
    else if current.data.type == "api_call" then
      some { type := "response", url := current.data.url, timeout := 5000 }
    else none

/-- The synthetic wait record pushed by `addWaitStrategies`
(action-parser.js 150-156): type, strategy, selector, timeout and a timestamp
one past the current action; the strategy's `url` is not copied. -/
def mkWaitAction (current : Action) (w : WaitStrategy) : Action :=
  Action.mk
    { type := "wait", strategy := some w.type,
      selector := w.selector.map SelVal.str,
      timeout := some w.timeout,
      timestamp := current.data.timestamp + 1 }
    []

/-- `ActionParser.addWaitStrategies` (action-parser.js 138-161). -/
def addWaitStrategies : List Action → List Action
  | [] => []
  | a :: rest =>
    match determineWaitStrategy a rest.head? with
    | some w => a :: mkWaitAction a w :: addWaitStrategies rest
    | none => a :: addWaitStrategies rest

/-- `ActionParser.identifyFormContainer` (action-parser.js 266-272). -/
def identifyFormContainer (a : Action) : String :=
  match a.data.element with
  | some e =>
    match e.parent with
    | some p =>
      if p.tagName == some "form" then jsOrS p.id (jsOrS p.className "form")
      else "default"
    | none => "default"
  | none => "default"

/-- Insertion-ordered grouping, as a JavaScript `Map` accumulates keys
(action-parser.js 247-255). -/
def insertGrouped (k : String) (a : Action) :
    List (String × List Action) → List (String × List Action)
  | [] => [(k, [a])]
  | (k2, acts) :: rest =>
    if k2 == k then (k2, acts ++ [a]) :: rest
    else (k2, acts) :: insertGrouped k a rest

/-- The numeric sort key of `optimizeFormGroup` (action-parser.js 276-279):
`order[a.type] || 0`. -/
def formOrderKey (a : Action) : Int :=
  if a.data.type == "input" then 0
  else if a.data.type == "select" then 1
  else if a.data.type == "textarea" then 2
  else if a.data.type == "click" then 3
  else 0

/-- Stable insertion into a key-sorted list: the new element goes after all
strictly-smaller keys and before equal ones seen later, matching the stable
`Array.prototype.sort`. -/
def insertByKey (a : Action) : List Action → List Action
  | [] => [a]
  | b :: rest =>
    if formOrderKey b < formOrderKey a then b :: insertByKey a rest
    else a :: b :: rest

/-- Stable sort by `formOrderKey`, the effect of
`actions.sort((a, b) => (order[a.type] || 0) - (order[b.type] || 0))`. -/
def sortByFormOrder : List Action → List Action
  | [] => []
  | a :: rest => insertByKey a (sortByFormOrder rest)

/-- `ActionParser.optimizeFormGroup` (action-parser.js 274-282). -/
def optimizeFormGroup (actions : List Action) : List Action :=
  sortByFormOrder actions

/-- `ActionParser.optimizeFormSequence` (action-parser.js 245-264): group the
sub-actions by form container (insertion-ordered) and sort each group. -/
def optimizeFormSequence (formActions : List Action) : List Action :=
  let groups := formActions.foldl
    (fun gs a => insertGrouped (identifyFormContainer a) a gs) []
  (groups.map fun g => optimizeFormGroup g.2).flatten

/-- `ActionParser.optimizeFormFilling` (action-parser.js 226-243). -/
def optimizeFormFilling (actions : List Action) : List Action :=
  actions.map fun a =>
    if a.data.type == "form_sequence" then
      Action.mk a.data (optimizeFormSequence a.subActions)
    else a

/-- `ActionParser.extractExpectedElements` (action-parser.js 310-317). -/
def extractExpectedElements (actions : List Action) : List ExpectedElem :=
  (actions.filter fun a => jsTruthySel a.data.selector).map fun a =>
    { selector := primaryOf a.data.selector, type := a.data.type }

/-- `ActionParser.optimizeNavigation` (action-parser.js 284-304): annotate
each navigation action with the selectors of the next three actions. -/
def optimizeNavigation : List Action → List Action
  | [] => []
  | a :: rest =>
    (if a.data.type == "navigation" then
       Action.mk { a.data with expectedElements := extractExpectedElements (rest.take 3) }
         a.subActions
     else a) :: optimizeNavigation rest

/-! ### Conversion to test steps (action-parser.js 319-494) -/

/-- One generated assertion. -/
structure Assertion where
  type : String
  description : String
  code : String
deriving Repr, DecidableEq

/-- The object built by `extractStepData` (action-parser.js 431-448).  The
outer `Option` on the element fields records key presence: assigning
`element.textContent` creates the key even when the value is `undefined`. -/
structure StepData where
  inputValue : Option String := none
  optionValue : Option String := none
  elementText : Option (Option String) := none
  elementType : Option (Option String) := none
deriving Repr, DecidableEq

/-- One test step (action-parser.js 319-332). -/
structure TestStep where
  id : Nat
  type : String
  description : String
  code : String
  selector : Option SelVal
  data : Option StepData
  assertions : Option (List Assertion)
  timestamp : Int
deriving Repr, DecidableEq

/-- `ActionParser.generateStepDescription` (action-parser.js 334-370). -/
def generateStepDescription (a : Action) : String :=
  if a.data.type == "navigation" then
    "Navigate to " ++ interpOptStr a.data.url
  else if a.data.type == "click" then
    match a.data.element with
    | some e =>
      if jsTruthyS e.textContent then
        "Click \"" ++ jsTake (jsOrS e.textContent "") 30 ++ "\""
      else "Click " ++ jsOrS e.tagName "element"
    | none => "Click element"
  else if a.data.type == "input" then
    let fieldName :=
      match a.data.element with
      | some e => jsOrS e.name (jsOrS e.id "field")
      | none => "field"
    "Enter text in " ++ fieldName
  else if a.data.type == "select" then
    "Select option in " ++
      (match a.data.element with
       | some e => jsOrS e.name "dropdown"
       | none => "dropdown")
  else if a.data.type == "hover" then
    "Hover over " ++
      (match a.data.element with
       | some e => jsOrS e.tagName "element"
       | none => "element")
  else if a.data.type == "keypress" then
    "Press " ++ interpOptStr a.data.key ++ " key"
  else if a.data.type == "wait" then
    "Wait for " ++ interpOptStr a.data.strategy ++
      (if jsTruthySel a.data.selector then " (" ++ interpSelVal a.data.selector ++ ")"
       else "")
  else if a.data.type == "form_sequence" then
    jsOrS a.data.description "Fill and submit form"
  else if a.data.type == "api_call" then
    "API call to " ++ interpOptStr a.data.url
  else
    "Perform " ++ a.data.type

/-- `ActionParser.generateWaitCode` (action-parser.js 407-424). -/
def generateWaitCode (a : Action) : String :=
  if a.data.strategy == some "visible" then
    "await page.locator(\x27" ++ interpSelVal a.data.selector ++
      "\x27).waitFor(\x7b state: \x27visible\x27 \x7d);"
  else if a.data.strategy == some "networkidle" then
    "await page.waitForLoadState(\x27networkidle\x27);"
  else if a.data.strategy == some "navigation" then
    "await page.waitForURL(\x27**\x27);"
  else if a.data.strategy == some "response" then
    "await page.waitForResponse(\x27" ++ interpOptStr a.data.url ++ "\x27);"
  else
    "await page.waitForTimeout(" ++
      toString (match a.data.timeout with
                | some t => if t = 0 then 1000 else t
                | none => 1000) ++ ");"

mutual
/-- `ActionParser.generateStepCode` (action-parser.js 372-405); a
`form_sequence` step joins the codes of its sub-actions with newlines. -/
def generateStepCode : Action → String
  | .mk d subs =>
    let a := Action.mk d subs
    if d.type == "navigation" then
      "await page.goto(\x27" ++ interpOptStr d.url ++ "\x27);"
    else if d.type == "click" then
      "await page.locator(\x27" ++ interpOptStr (primaryOf d.selector) ++
        "\x27).click();"
    else if d.type == "input" then
      "await page.locator(\x27" ++ interpOptStr (primaryOf d.selector) ++
        "\x27).fill(\x27" ++ jsOrS d.value "$\x7bdata.inputValue\x7d" ++ "\x27);"
    else if d.type == "select" then
      "await page.locator(\x27" ++ interpOptStr (primaryOf d.selector) ++
        "\x27).selectOption(\x27" ++ jsOrS d.value "$\x7bdata.optionValue\x7d" ++
        "\x27);"
    else if d.type == "hover" then
      "await page.locator(\x27" ++ interpOptStr (primaryOf d.selector) ++
        "\x27).hover();"
    else if d.type == "keypress" then
      "await page.keyboard.press(\x27" ++ interpOptStr d.key ++ "\x27);"
    else if d.type == "wait" then
      generateWaitCode a
    else if d.type == "form_sequence" then
      jsJoin "\n" (generateStepCodeList subs)
    else if d.type == "api_call" then
      "// Wait for API call to " ++ interpOptStr d.url ++
        "\nawait page.waitForResponse(\x27" ++ interpOptStr d.url ++ "\x27);"
    else
      "// " ++ d.type ++ " action"

def generateStepCodeList : List Action → List String
  | [] => []
  | a :: rest => generateStepCode a :: generateStepCodeList rest
end

/-- `ActionParser.generateFormSequenceCode` (action-parser.js 426-429). -/
def generateFormSequenceCode (a : Action) : String :=
  jsJoin "\n" (generateStepCodeList a.subActions)

/-- `ActionParser.extractStepData` (action-parser.js 431-448). -/
def extractStepData (a : Action) : Option StepData :=
  let d0 : StepData := {}
  let d1 := if a.data.type == "input" && jsTruthyS a.data.value then
      { d0 with inputValue := a.data.value } else d0
  let d2 := if a.data.type == "select" && jsTruthyS a.data.value then
      { d1 with optionValue := a.data.value } else d1
  let d3 := match a.data.element with
    | some e => { d2 with elementText := some e.textContent,
                          elementType := some e.tagName }
    | none => d2
  if d3.inputValue.isSome || d3.optionValue.isSome ||
      d3.elementText.isSome || d3.elementType.isSome then some d3
  else none

/-- `ActionParser.generateAssertions` (action-parser.js 450-494). -/
def generateAssertions (a : Action) : Option (List Assertion) :=
  let asserts : List Assertion :=
    if a.data.type == "navigation" then
      [{ type := "url", description := "Verify page URL",
         code := "await expect(page).toHaveURL(\x27" ++ interpOptStr a.data.url ++
           "\x27);" }] ++
      (if a.data.expectedElements.length > 0 then
         a.data.expectedElements.map fun el =>
           { type := "visibility",
             description := "Verify " ++ el.type ++ " element is visible",
             code := "await expect(page.locator(\x27" ++ interpOptStr el.selector ++
               "\x27)).toBeVisible();" }
       else [])
    else if a.data.type == "click" then
      if (match a.data.element with
          | some e => e.tagName == some "button"
          | none => false) && isSubmitButton a.data.element then
        [{ type := "form_submission", description := "Verify form submission",
           code := "// Verify form submission was successful" }]
      else []
    else if a.data.type == "input" then
      [{ type := "input_value", description := "Verify input value",
         code := "await expect(page.locator(\x27" ++
           interpOptStr (primaryOf a.data.selector) ++
           "\x27)).toHaveValue(\x27" ++ interpOptStr a.data.value ++ "\x27);" }]
    else []
  if asserts.length > 0 then some asserts else none

/-- `ActionParser.convertToTestSteps` (action-parser.js 319-332): every
surviving action becomes one step, numbered from 1. -/
def convertToTestSteps (optimizedActions : List Action) : List TestStep :=
  optimizedActions.enum.map fun p =>
    { id := p.1 + 1, type := p.2.data.type,
      description := generateStepDescription p.2,
      code := generateStepCode p.2,
      selector := p.2.data.selector,
      data := extractStepData p.2,
      assertions := generateAssertions p.2,
      timestamp := p.2.data.timestamp }

/-- The argument of `optimizeActions` at its public boundary: JavaScript
callers can pass any value, and `Array.isArray` separates real arrays from
the rest. -/
inductive JSInput where
  | arr (actions : List Action)
  | nonArray
deriving Repr

/-- `ActionParser.optimizeActions` (action-parser.js 13-28).  The `now`
argument models the ambient clock (`Date.now` / `new Date()`): the
surrounding class reads it elsewhere (e.g. `exportOptimizationConfig`), but
no function of this pipeline does, which is exactly what the determinism
claim is about. -/
def optimizeActions (now : Int) (recordedActions : JSInput) : List TestStep :=
  match now, recordedActions with
  | _, .nonArray => []
  | _, .arr l =>
    if l.length = 0 then []
    else
      let a1 := removeRedundantActions l
      let a2 := groupSequentialActions a1
      let a3 := addWaitStrategies a2
      let a4 := optimizeFormFilling a3
      let a5 := optimizeNavigation a4
      convertToTestSteps a5

/-! ### Recording sessions (process-manager.js `PlaywrightRecorder`,
699-783, and the Electron main-process `start-recording` handler,
main.js 229-331) -/

/-- An entry of the recorder's in-memory action buffer as pushed by
`startRecording` itself (the initial navigation record). -/
structure RecAction where
  type : String
  url : String
  timestamp : Int
deriving Repr, DecidableEq

/-- The mutable fields of a `PlaywrightRecorder` touched by
`startRecording` (process-manager.js 711-721, 725-773). -/
structure RecorderState where
  isRecording : Bool := false
  recordedActions : List RecAction := []
  browserLaunched : Bool := false
  testName : Option String := none
  startUrl : Option String := none
deriving Repr, DecidableEq

/-- The environment one `startRecording` call runs in: whether the browser
launch (with context and page creation) succeeds, whether the initial
`page.goto` succeeds, and the wall clock used for the navigation record. -/
structure StartEnv where
  launchOk : Bool
  gotoOk : Bool
  now : Int
deriving Repr, DecidableEq

/-- `PlaywrightRecorder.startRecording` (process-manager.js 725-773).  The
body is one `try` block: launch the browser, create context and page, set
`isRecording := true`, clear the action buffer, navigate to the start URL,
record the navigation action and return `true`; the `catch` block re-throws.
An error is returned together with the state as mutated up to the throw
(the JavaScript object keeps those mutations).  There is no check of
`isRecording` on entry. -/
def startRecording (env : StartEnv) (url testName : String) (s : RecorderState) :
    Except (Unit × RecorderState) (RecorderState × Bool) :=
  if !env.launchOk then .error ((), s)
  else
    let s1 : RecorderState :=
      { s with browserLaunched := true, isRecording := true,
               recordedActions := [],
               testName := some testName, startUrl := some url }
    if !env.gotoOk then .error ((), s1)
    else
      let s2 := { s1 with recordedActions :=
        s1.recordedActions ++ [{ type := "navigation", url := url, timestamp := env.now }] }
      .ok (s2, true)

/-- `PlaywrightRecorder.stopRecording` entry guard (process-manager.js
1029-1032): stopping without an active recording throws
"No recording in progress". -/
def stopRecordingGuard (s : RecorderState) : Except String Unit :=
  if !s.isRecording then .error "No recording in progress"
  else .ok ()

/-- The result object of the Electron main-process `start-recording` IPC
handler (main.js 229-331). -/
structure IpcStartResult where
  success : Bool
  error : Option String := none
  pid : Option Nat := none
deriving Repr, DecidableEq

/-- The Electron main-process `start-recording` handler (main.js 229-331),
for a spawn that succeeds: when `this.recordingProcess` is already set the
handler throws "Recording already in progress", which its own `catch`
converts to a failure result, and no second process is spawned.  Returns the
result object together with the new `recordingProcess` field. -/
def ipcStartRecording (recordingProcess : Option Nat) (spawnedPid : Nat) :
    IpcStartResult × Option Nat :=
  match recordingProcess with
  | some p =>
    ({ success := false, error := some "Recording already in progress" }, some p)
  | none =>
    ({ success := true, pid := some spawnedPid }, some spawnedPid)

/-! ### Concrete sample data used by witnesses and counterexamples -/

/-- A span with a role, an aria-label and short text: its role candidate
(confidence 0.6) is tried before its text candidate (confidence 0.65). -/
def infoSpan : ElementInfo :=
  { tagName := "span", textContent := "Hi", role := "nav", ariaLabel := "menu",
    attributes := [("role", "nav"), ("aria-label", "menu")] }

/-- A page on which both the role selector and the text selector of
`infoSpan` resolve uniquely to the original element (handle 7). -/
def pageSpan : PageModel :=
  { info := .ok infoSpan, origId := 7,
    locatorAll := fun s =>
      if s = "[role=\"nav\"][aria-label=\"menu\"]" || s = "span:has-text(\"Hi\")"
      then .ok [7] else .ok [],
    identityEvalFails := fun _ => false,
    indexEval := .ok 0 }

/-- The text candidate of `infoSpan`. -/
def spanTextCandidate : Candidate :=
  { selector := "span:has-text(\"Hi\")", type := "text", confidence := 0.65 }

/-- An element whose id is a pure-hex digest; as the DOM does, its attribute
map carries the id as the `id` attribute. -/
def infoHexId : ElementInfo :=
  { tagName := "div", id := "deadbeef", attributes := [("id", "deadbeef")] }

/-- A page on which the attribute selector built from the hex id resolves
uniquely to the original element (handle 3). -/
def pageHexId : PageModel :=
  { info := .ok infoHexId, origId := 3,
    locatorAll := fun s => if s = "[id=\"deadbeef\"]" then .ok [3] else .ok [],
    identityEvalFails := fun _ => false,
    indexEval := .ok 1 }

/-- An element with a `data-testid` attribute and a stable id. -/
def infoTestId : ElementInfo :=
  { tagName := "button", id := "save", textContent := "Save",
    attributes := [("data-testid", "save-btn"), ("id", "save")] }

/-- A page on which both the data-attribute selector and the id selector of
`infoTestId` resolve uniquely to the original element (handle 9). -/
def pageTestId : PageModel :=
  { info := .ok infoTestId, origId := 9,
    locatorAll := fun s =>
      if s = "[data-testid=\"save-btn\"]" || s = "#save" then .ok [9] else .ok [],
    identityEvalFails := fun _ => false,
    indexEval := .ok 2 }

/-- A page where every evaluation throws: element info, locators and even the
element-index evaluation of the catch handler. -/
def pageDead : PageModel :=
  { info := .error (), origId := 0, locatorAll := fun _ => .error (),
    identityEvalFails := fun _ => true, indexEval := .error () }

/-- A page where the element-info evaluation throws but the element-index
evaluation of the catch handler still answers (index 4). -/
def pageCaught : PageModel :=
  { info := .error (), origId := 0, locatorAll := fun _ => .error (),
    identityEvalFails := fun _ => true, indexEval := .ok 4 }

/-- Sample selector value shared by the consecutive-pair samples. -/
def sampleBtnSel : Option SelVal := some (SelVal.obj "#btn")

/-- First of two consecutive clicks on the same selector. -/
def sampleClick1 : Action := .mk { type := "click", selector := sampleBtnSel, timestamp := 100 } []

/-- Second of two consecutive clicks on the same selector. -/
def sampleClick2 : Action := .mk { type := "click", selector := sampleBtnSel, timestamp := 150 } []

/-- First of two consecutive inputs on the same selector. -/
def sampleInput1 : Action := .mk
  { type := "input", selector := some (SelVal.obj "#field"), value := some "al",
    timestamp := 200 } []

/-- Second of two consecutive inputs on the same selector. -/
def sampleInput2 : Action := .mk
  { type := "input", selector := some (SelVal.obj "#field"), value := some "alice",
    timestamp := 250 } []

/-- A hover on the same selector as `sampleClick1`. -/
def sampleHover : Action := .mk { type := "hover", selector := sampleBtnSel, timestamp := 90 } []

/-- A navigation record. -/
def sampleNav : Action := .mk
  { type := "navigation", url := some "https://example.test/login", timestamp := 0 } []

/-- A recorder state with a recording in progress. -/
def activeRecorder : RecorderState :=
  { isRecording := true, browserLaunched := true,
    recordedActions := [{ type := "click", url := "", timestamp := 5 }],
    testName := some "old", startUrl := some "https://old.test" }

/-- An environment where launch and navigation both succeed. -/
def envOk : StartEnv := { launchOk := true, gotoOk := true, now := 42 }

/-! ### Helper lemmas -/

/-- `validateSelector` returns `true` exactly when the locator resolves to the
single original handle and the identity evaluation does not throw. -/
theorem validateSelector_eq_true_iff (m : PageModel) (c : Candidate) :
    validateSelector m c = true ↔
      m.locatorAll c.selector = Except.ok [m.origId] ∧
        m.identityEvalFails m.origId = false := by
  unfold validateSelector
  rcases hl : m.locatorAll c.selector with e | es
  · simp
  · rcases es with _ | ⟨f, _ | ⟨g, t⟩⟩
    · simp
    · cases hfb : m.identityEvalFails f with
      | true =>
        constructor
        · intro h
          simp [hfb] at h
        · rintro ⟨h1, h2⟩
          have hfo : f = m.origId := by simpa using h1
          rw [hfo, h2] at hfb
          cases hfb
      | false =>
        simp only [hfb, Bool.false_eq_true, if_false, decide_eq_true_eq]
        constructor
        · intro h
          subst h
          exact ⟨rfl, hfb⟩
        · rintro ⟨h1, _⟩
          simpa using h1
    · constructor
      · intro h
        simp at h
      · rintro ⟨h1, h2⟩
        simp at h1

/-- The strategy loop skips a candidate that fails validation. -/
theorem firstValidated_skip (m : PageModel) (c : Candidate)
    (rest : List (Option Candidate)) (h : validateSelector m c = false) :
    firstValidated m (some c :: rest) = firstValidated m rest := by
  simp [firstValidated, h]

/-- `removeRedundantActions` produces a subsequence of its input. -/
theorem removeRedundantActions_sublist (l : List Action) :
    (removeRedundantActions l).Sublist l := by
  induction l with
  | nil => simp [removeRedundantActions]
  | cons a rest ih =>
    cases rest with
    | nil => simp [removeRedundantActions]
    | cons b t =>
      rw [removeRedundantActions]
      by_cases h : isRedundantPair a b
      · simpa [h] using (ih.cons a)
      · simpa [h] using (ih.cons₂ a)

/-- When the element-info evaluation throws, `generateSelector` falls to its
catch handler, whose outcome is decided by the element-index evaluation. -/
theorem generateSelector_info_error (m : PageModel)
    (hi : m.info = Except.error ()) :
    generateSelector m =
      match m.indexEval with
      | .ok idx =>
        .ok { primary := "xpath=//body//*[position()=" ++ toString idx ++ "]",
              type := "xpath", confidence := 0.1, fallbacks := [] }
      | .error e => .error e := by
  unfold generateSelector generateSelectorTry
  rw [hi]

/-- When the element-info evaluation answers, the `try` block returns the
first validated strategy candidate with its fallbacks, or else the composite
selector. -/
theorem generateSelectorTry_eq (m : PageModel) (info : ElementInfo)
    (hi : m.info = Except.ok info) :
    generateSelectorTry m =
      match firstValidated m (strategyCandidates info) with
      | some c =>
        Except.ok { primary := c.selector, type := c.type,
                    confidence := c.confidence,
                    fallbacks := pickFallbacks m c.selector
                      [some (generateXPathSelector info),
                       some (generateCssSelector info),
                       generateTextSelector info] 0 }
      | none => Except.ok (generateCompositeSelector info) := by
  unfold generateSelectorTry generateFallbacks
  rw [hi]

/-- When the element-info evaluation answers, `generateSelector` returns the
first validated strategy candidate with its fallbacks, or else the composite
selector; no exception path is taken. -/
theorem generateSelector_info_ok (m : PageModel) (info : ElementInfo)
    (hi : m.info = Except.ok info) :
    generateSelector m =
      match firstValidated m (strategyCandidates info) with
      | some c =>
        Except.ok { primary := c.selector, type := c.type,
                    confidence := c.confidence,
                    fallbacks := pickFallbacks m c.selector
                      [some (generateXPathSelector info),
                       some (generateCssSelector info),
                       generateTextSelector info] 0 }
      | none => Except.ok (generateCompositeSelector info) := by
  unfold generateSelector
  rw [generateSelectorTry_eq m info hi]
  rcases hfv : firstValidated m (strategyCandidates info) with _ | c <;> rfl

/-- Step ids assigned by `convertToTestSteps` are consecutive from 1. -/
theorem convertToTestSteps_id (acts : List Action) (i : Nat)
    (h : i < (convertToTestSteps acts).length) :
    ((convertToTestSteps acts).get ⟨i, h⟩).id = i + 1 := by
  have hlen : (convertToTestSteps acts).length = acts.enum.length := by
    simp [convertToTestSteps]
  simp [convertToTestSteps, List.get_eq_getElem, List.getElem_map,
    List.getElem_enum]

/-! ### Claims -/

/-- C1: a candidate selector is accepted by `validateSelector` exactly when
resolving it against the live page yields exactly one element and that
element is reference-identical to the original handle; any other outcome
(zero matches, multiple matches, evaluation error) rejects the candidate, and
the strategy loop then advances to the next strategy. -/
theorem claim_c1_validation_protocol :
    (∀ (m : PageModel) (c : Candidate),
      validateSelector m c = true ↔
        m.locatorAll c.selector = Except.ok [m.origId] ∧
          m.identityEvalFails m.origId = false) ∧
    (∀ (m : PageModel) (c : Candidate) (rest : List (Option Candidate)),
      validateSelector m c = false →
        firstValidated m (some c :: rest) = firstValidated m rest) :=
  ⟨validateSelector_eq_true_iff, firstValidated_skip⟩

/-- C1 witness: on the concrete `pageTestId`, the accepted data-attribute
candidate resolves to exactly the original handle, and a failing candidate
is skipped by the strategy loop. -/
theorem claim_c1_validation_protocol_witness :
    (validateSelector pageTestId
        { selector := "[data-testid=\"save-btn\"]", type := "data-attribute",
          confidence := 0.9 } = true ↔
      pageTestId.locatorAll "[data-testid=\"save-btn\"]" = Except.ok [9] ∧
        pageTestId.identityEvalFails 9 = false) ∧
    firstValidated pageTestId
        [some { selector := "p.missing", type := "css", confidence := 0.4 }] =
      firstValidated pageTestId [] :=
  ⟨claim_c1_validation_protocol.1 pageTestId _,
   claim_c1_validation_protocol.2 pageTestId _ [] (by rfl)⟩

/-- C3 counterexample: the element with pure-hex id "deadbeef" (which
`isStableId` classifies as unstable) still yields a primary selector whose
basis is that id, through the preferred-attribute strategy (whose default
priority list contains `id` and which applies no stability check). -/
theorem claim_c3_counterexample :
    reLongHex "deadbeef" = true ∧
    isStableId "deadbeef" = false ∧
    generateSelector pageHexId =
      Except.ok { primary := "[id=\"deadbeef\"]", type := "data-attribute",
                  confidence := 0.9, fallbacks := [] } :=
  ⟨by decide, by decide, by rfl⟩

/-- C3 amended: an id matching the pure-hex pattern is never used by the
dedicated id strategy — `isStableId` rejects it, so `generateIdSelector`
yields no candidate — but the preferred-attribute strategy (default list
containing `id`) and the XPath strategy apply no stability check and can
still base the primary selector on such an id. -/
theorem claim_c3_amended (info : ElementInfo) (h : reLongHex info.id = true) :
    isStableId info.id = false ∧ generateIdSelector info = none := by
  have hs : isStableId info.id = false := by
    unfold isStableId
    simp [h]
  refine ⟨hs, ?_⟩
  unfold generateIdSelector
  simp [hs]

/-- C3 amended witness: instantiated at the concrete hex id "deadbeef". -/
theorem claim_c3_amended_witness :
    isStableId (ElementInfo.id infoHexId) = false ∧
      generateIdSelector infoHexId = none :=
  claim_c3_amended infoHexId (by decide)

/-- C4 counterexample: on a page where every evaluation throws, the exception
raised by the catch handler's own `getElementIndex` evaluation propagates out
of `generateSelector`. -/
theorem claim_c4_counterexample :
    generateSelector pageDead = Except.error () := by rfl

/-- C4 amended: every exception raised during element-info extraction,
strategy generation or validation is caught inside `generateSelector`, and —
provided the catch handler's own element-index evaluation succeeds — the
call returns normally; in particular a failed element-info evaluation is
converted into the confidence-0.1 XPath-by-position fallback.  Only when the
element-index evaluation itself also throws does an exception escape. -/
theorem claim_c4_amended (m : PageModel) (idx : Int)
    (h : m.indexEval = Except.ok idx) :
    (generateSelector m).isOk = true ∧
    (m.info = Except.error () →
      generateSelector m =
        Except.ok { primary := "xpath=//body//*[position()=" ++ toString idx ++ "]",
                    type := "xpath", confidence := 0.1, fallbacks := [] }) := by
  rcases hi : m.info with e | info
  · cases e
    rw [generateSelector_info_error m hi, h]
    exact ⟨rfl, fun _ => rfl⟩
  · rw [generateSelector_info_ok m info hi]
    constructor
    · rcases hfv : firstValidated m (strategyCandidates info) with _ | c
      · rfl
      · rfl
    · intro hcontra
      simp [hi] at hcontra

/-- C4 amended witness: on `pageCaught` (element info throws, element index
answers 4) the call returns the XPath-by-position fallback. -/
theorem claim_c4_amended_witness :
    (generateSelector pageCaught).isOk = true ∧
    (pageCaught.info = Except.error () →
      generateSelector pageCaught =
        Except.ok { primary := "xpath=//body//*[position()=" ++ toString (4 : Int) ++ "]",
                    type := "xpath", confidence := 0.1, fallbacks := [] }) :=
  claim_c4_amended pageCaught 4 (by rfl)

/-- C7: the action-parser pipeline is deterministic — its output does not
depend on the ambient clock, so running `optimizeActions` twice on the same
input list yields identical test steps, including descriptions, generated
code fragments, data payloads and assertions. -/
theorem claim_c7_parser_deterministic (t1 t2 : Int) (input : JSInput) :
    optimizeActions t1 input = optimizeActions t2 input := by
  cases input <;> rfl

/-- C9: the redundancy-elimination stage returns a subsequence of its input:
every surviving record is an input record, relative order is preserved, no
record is duplicated or invented, and the output is never longer than the
input. -/
theorem claim_c9_removeRedundant_subsequence (l : List Action) :
    (removeRedundantActions l).Sublist l ∧
      (removeRedundantActions l).length ≤ l.length :=
  ⟨removeRedundantActions_sublist l, (removeRedundantActions_sublist l).length_le⟩

/-- C2 counterexample: strategies are not tried in descending confidence
order.  On `pageSpan` the generator returns the role candidate with
confidence 0.6 even though the later-tried text candidate (confidence 0.65)
also validates on the same page; a confidence-descending trial would have
returned the 0.65 candidate. -/
theorem claim_c2_counterexample :
    generateSelector pageSpan =
      Except.ok { primary := "[role=\"nav\"][aria-label=\"menu\"]",
                  type := "role", confidence := 0.6,
                  fallbacks := [spanTextCandidate] } ∧
    validateSelector pageSpan spanTextCandidate = true ∧
    spanTextCandidate.confidence = 0.65 ∧
    (0.6 : ℚ) < 0.65 :=
  ⟨by rfl, by rfl, by rfl, by norm_num⟩

/-- C2 amended: strategies are tried in the fixed source order
(preferred-attribute, id, name, role, text, css, xpath) — descending in
confidence except that a role-text candidate (0.75) is tried after name
(0.7) and a text candidate (0.65) after a plain role candidate (0.6) — and
the first candidate that validates wins.  In particular, for an element
carrying a truthy `data-testid`, the data-attribute candidate (confidence
0.9) is the very first one tried, so whenever it validates it is chosen as
primary — ahead of any id selector (confidence 0.8). -/
theorem claim_c2_amended (m : PageModel) (info : ElementInfo) (v : String)
    (hi : m.info = Except.ok info)
    (hattr : lookupAttr info.attributes "data-testid" = some v)
    (hne : v ≠ "") :
    generateTestIdSelector info =
      some { selector := "[" ++ "data-testid" ++ "=\"" ++ v ++ "\"]",
             type := "data-attribute", confidence := 0.9 } ∧
    (validateSelector m
        { selector := "[" ++ "data-testid" ++ "=\"" ++ v ++ "\"]",
          type := "data-attribute", confidence := 0.9 } = true →
      ∃ r, generateSelector m = Except.ok r ∧
        r.primary = "[" ++ "data-testid" ++ "=\"" ++ v ++ "\"]" ∧
        r.type = "data-attribute" ∧ r.confidence = 0.9) := by
  have hgen : generateTestIdSelector info =
      some { selector := "[" ++ "data-testid" ++ "=\"" ++ v ++ "\"]",
             type := "data-attribute", confidence := 0.9 } := by
    simp [generateTestIdSelector, preferredAttributes, testIdScan, hattr, hne]
  refine ⟨hgen, fun hval => ?_⟩
  have hfv : firstValidated m (strategyCandidates info) =
      some { selector := "[" ++ "data-testid" ++ "=\"" ++ v ++ "\"]",
             type := "data-attribute", confidence := 0.9 } := by
    unfold strategyCandidates
    rw [hgen]
    show (if validateSelector m _ then _ else _) = _
    rw [if_pos hval]
  rw [generateSelector_info_ok m info hi, hfv]
  exact ⟨_, rfl, rfl, rfl, rfl⟩

/-- C2 amended witness: on `pageTestId` (both a `data-testid` and a stable
id, both selectors unique) the data-attribute selector is chosen as
primary with confidence 0.9. -/
theorem claim_c2_amended_witness :
    generateTestIdSelector infoTestId =
      some { selector := "[" ++ "data-testid" ++ "=\"" ++ "save-btn" ++ "\"]",
             type := "data-attribute", confidence := 0.9 } ∧
    (∃ r, generateSelector pageTestId = Except.ok r ∧
      r.primary = "[" ++ "data-testid" ++ "=\"" ++ "save-btn" ++ "\"]" ∧
      r.type = "data-attribute" ∧ r.confidence = 0.9) :=
  ⟨(claim_c2_amended pageTestId infoTestId "save-btn" rfl rfl (by decide)).1,
   (claim_c2_amended pageTestId infoTestId "save-btn" rfl rfl (by decide)).2 (by rfl)⟩

/-- Unfolding equation of `removeRedundantActions` on two or more actions. -/
theorem removeRedundant_cons_cons (a b : Action) (rest : List Action) :
    removeRedundantActions (a :: b :: rest) =
      if isRedundantPair a b then removeRedundantActions (b :: rest)
      else a :: removeRedundantActions (b :: rest) := by
  rfl

/-- A single click action passes through the grouping stage unchanged. -/
theorem groupSequential_single_click (b : Action) (h : b.data.type = "click") :
    groupSequentialActions [b] = [b] := by
  rcases hf : isFormElement b.data.element with _ | _ <;>
    simp [groupSequentialActions, groupSeqGo, h, hf, finalizeGroup]

/-- C5: consecutive click/click, input/input and hover/click pairs on the
same primary selector are collapsed by the redundancy-elimination stage —
only the later action survives — and for an input list consisting of such a
click pair the parser output is exactly one test step, carrying the later
action's timestamp. -/
theorem claim_c5_redundant_pairs :
    (∀ (a b : Action) (rest : List Action),
      a.data.type = "click" → b.data.type = "click" →
      primaryOf a.data.selector = primaryOf b.data.selector →
      removeRedundantActions (a :: b :: rest) = removeRedundantActions (b :: rest)) ∧
    (∀ (a b : Action) (rest : List Action),
      a.data.type = "input" → b.data.type = "input" →
      primaryOf a.data.selector = primaryOf b.data.selector →
      removeRedundantActions (a :: b :: rest) = removeRedundantActions (b :: rest)) ∧
    (∀ (a b : Action) (rest : List Action),
      a.data.type = "hover" → b.data.type = "click" →
      primaryOf a.data.selector = primaryOf b.data.selector →
      removeRedundantActions (a :: b :: rest) = removeRedundantActions (b :: rest)) ∧
    (∀ (now : Int) (a b : Action),
      a.data.type = "click" → b.data.type = "click" →
      primaryOf a.data.selector = primaryOf b.data.selector →
      (optimizeActions now (JSInput.arr [a, b])).length = 1 ∧
      (optimizeActions now (JSInput.arr [a, b])).map (fun s => s.timestamp) =
        [b.data.timestamp]) := by
  have hdrop : ∀ (a b : Action) (rest : List Action), isRedundantPair a b = true →
      removeRedundantActions (a :: b :: rest) = removeRedundantActions (b :: rest) := by
    intro a b rest hr
    rw [removeRedundant_cons_cons, if_pos hr]
  refine ⟨?_, ?_, ?_, ?_⟩
  · intro a b rest h1 h2 h3
    exact hdrop a b rest (by simp [isRedundantPair, h1, h2, h3])
  · intro a b rest h1 h2 h3
    exact hdrop a b rest (by simp [isRedundantPair, h1, h2, h3])
  · intro a b rest h1 h2 h3
    exact hdrop a b rest (by simp [isRedundantPair, h1, h2, h3])
  · intro now a b h1 h2 h3
    have e1 : removeRedundantActions [a, b] = [b] := by
      rw [removeRedundant_cons_cons, if_pos (by simp [isRedundantPair, h1, h2, h3])]
      rfl
    have e2 : groupSequentialActions [b] = [b] := groupSequential_single_click b h2
    have e3 : addWaitStrategies [b] = [b] := by rfl
    have e4 : optimizeFormFilling [b] = [b] := by
      simp [optimizeFormFilling, h2]
    have e5 : optimizeNavigation [b] = [b] := by
      simp [optimizeNavigation, h2]
    constructor
    · simp [optimizeActions, e1, e2, e3, e4, e5, convertToTestSteps]
    · simp [optimizeActions, e1, e2, e3, e4, e5, convertToTestSteps]

/-- C5 witness: the sample click/click, input/input and hover/click pairs on
identical primary selectors each collapse; the standalone click pair yields
exactly one test step. -/
theorem claim_c5_redundant_pairs_witness :
    removeRedundantActions [sampleClick1, sampleClick2] =
      removeRedundantActions [sampleClick2] ∧
    removeRedundantActions [sampleInput1, sampleInput2] =
      removeRedundantActions [sampleInput2] ∧
    removeRedundantActions [sampleHover, sampleClick1] =
      removeRedundantActions [sampleClick1] ∧
    (optimizeActions 0 (JSInput.arr [sampleClick1, sampleClick2])).length = 1 :=
  ⟨claim_c5_redundant_pairs.1 sampleClick1 sampleClick2 [] rfl rfl rfl,
   claim_c5_redundant_pairs.2.1 sampleInput1 sampleInput2 [] rfl rfl rfl,
   claim_c5_redundant_pairs.2.2.1 sampleHover sampleClick1 [] rfl rfl rfl,
   (claim_c5_redundant_pairs.2.2.2 0 sampleClick1 sampleClick2 rfl rfl rfl).1⟩

/-- C6 counterexample: a navigation record that is the last action of the
post-grouping sequence is not followed by any synthetic wait — contradicting
the claim that every navigation is immediately followed by a networkidle
wait. -/
theorem claim_c6_counterexample :
    sampleNav.data.type = "navigation" ∧
    groupSequentialActions [sampleNav] = [sampleNav] ∧
    addWaitStrategies [sampleNav] = [sampleNav] :=
  ⟨rfl, rfl, rfl⟩

/-- C6 amended: every navigation record that is followed by at least one
further action in the post-grouping sequence is immediately followed by a
synthetic wait record of strategy networkidle with a 5000 ms timeout; a
navigation that ends the sequence gets no wait (`determineWaitStrategy`
returns null when there is no next action).  At most one synthetic wait is
inserted per action boundary, so the output is at most twice as long as the
input. -/
theorem claim_c6_amended :
    (∀ (a b : Action) (rest : List Action), a.data.type = "navigation" →
      addWaitStrategies (a :: b :: rest) =
        a :: Action.mk { type := "wait", strategy := some "networkidle",
                         selector := none, timeout := some 5000,
                         timestamp := a.data.timestamp + 1 } [] ::
          addWaitStrategies (b :: rest)) ∧
    (∀ l : List Action, (addWaitStrategies l).length ≤ 2 * l.length) := by
  constructor
  · intro a b rest h
    simp [addWaitStrategies, determineWaitStrategy, h, mkWaitAction]
  · intro l
    induction l with
    | nil => simp [addWaitStrategies]
    | cons a rest ih =>
      rcases hw : determineWaitStrategy a rest.head? with _ | w <;>
        simp [addWaitStrategies, hw] <;> omega

/-- C6 amended witness: instantiated at the sample navigation followed by a
click. -/
theorem claim_c6_amended_witness :
    addWaitStrategies [sampleNav, sampleClick1] =
      sampleNav :: Action.mk { type := "wait", strategy := some "networkidle",
                               selector := none, timeout := some 5000,
                               timestamp := sampleNav.data.timestamp + 1 } [] ::
        addWaitStrategies [sampleClick1] ∧
    (addWaitStrategies [sampleNav]).length ≤ 2 * [sampleNav].length :=
  ⟨claim_c6_amended.1 sampleNav sampleClick1 [] rfl,
   claim_c6_amended.2 [sampleNav]⟩

/-- C8 counterexample: calling `startRecording` while a recording is in
progress does not fail — it succeeds and silently replaces the active
session's buffer and state. -/
theorem claim_c8_counterexample :
    activeRecorder.isRecording = true ∧
    startRecording envOk "https://new.test" "t2" activeRecorder =
      Except.ok ({ isRecording := true, browserLaunched := true,
                   recordedActions :=
                     [{ type := "navigation", url := "https://new.test",
                        timestamp := 42 }],
                   testName := some "t2", startUrl := some "https://new.test" },
                 true) :=
  ⟨rfl, rfl⟩

/-- C8 amended: `PlaywrightRecorder.startRecording` performs no in-progress
check — whenever launch and initial navigation succeed it returns success
and resets the session state regardless of the previous state, silently
replacing an active session's buffer and flags; the fail-fast guard lives
one layer up, in the Electron main process's start-recording handler, which
rejects with "Recording already in progress" and keeps the existing process
whenever one is active. -/
theorem claim_c8_amended :
    (∀ (p : Option Nat) (pid : Nat), p ≠ none →
      (ipcStartRecording p pid).1.success = false ∧
      (ipcStartRecording p pid).1.error = some "Recording already in progress" ∧
      (ipcStartRecording p pid).2 = p) ∧
    (∀ (env : StartEnv) (u t : String) (s : RecorderState),
      env.launchOk = true → env.gotoOk = true →
      startRecording env u t s =
        Except.ok ({ isRecording := true, browserLaunched := true,
                     recordedActions :=
                       [{ type := "navigation", url := u, timestamp := env.now }],
                     testName := some t, startUrl := some u }, true)) := by
  constructor
  · intro p pid hp
    cases p with
    | none => exact absurd rfl hp
    | some q => exact ⟨rfl, rfl, rfl⟩
  · intro env u t s h1 h2
    simp [startRecording, h1, h2]

/-- C8 amended witness: the IPC guard rejects when a process is active, and
the recorder-level call succeeds over an active session. -/
theorem claim_c8_amended_witness :
    (ipcStartRecording (some 111) 222).1.success = false ∧
    startRecording envOk "https://new.test" "t2" activeRecorder =
      Except.ok ({ isRecording := true, browserLaunched := true,
                   recordedActions :=
                     [{ type := "navigation", url := "https://new.test",
                        timestamp := 42 }],
                   testName := some "t2", startUrl := some "https://new.test" },
                 true) :=
  ⟨(claim_c8_amended.1 (some 111) 222 (by simp)).1,
   claim_c8_amended.2 envOk "https://new.test" "t2" activeRecorder rfl rfl⟩

/-- C10: `optimizeActions` is total at its public boundary for degenerate
input — a non-array argument or an empty array yields the empty test-step
list — and otherwise the resulting test steps carry sequence ids numbered
consecutively from 1. -/
theorem claim_c10_degenerate_and_ids :
    (∀ now : Int, optimizeActions now JSInput.nonArray = []) ∧
    (∀ now : Int, optimizeActions now (JSInput.arr []) = []) ∧
    (∀ (now : Int) (l : List Action) (i : Nat)
        (h : i < (optimizeActions now (JSInput.arr l)).length),
      ((optimizeActions now (JSInput.arr l)).get ⟨i, h⟩).id = i + 1) := by
  refine ⟨fun _ => rfl, fun _ => rfl, ?_⟩
  intro now l i h
  by_cases hl : l.length = 0
  · have hz : optimizeActions now (JSInput.arr l) = [] := by
      simp [optimizeActions, hl]
    exact absurd h (by simp [hz])
  · have heq : optimizeActions now (JSInput.arr l) =
        convertToTestSteps (optimizeNavigation (optimizeFormFilling
          (addWaitStrategies (groupSequentialActions (removeRedundantActions l))))) := by
      simp [optimizeActions, hl]
    revert h
    rw [heq]
    intro h
    exact convertToTestSteps_id _ i h

/-- C10 witness: degenerate inputs give the empty output, and the first step
of a concrete two-action recording has id 1. -/
theorem claim_c10_degenerate_and_ids_witness :
    optimizeActions 5 JSInput.nonArray = [] ∧
    optimizeActions 5 (JSInput.arr []) = [] ∧
    ((optimizeActions 0 (JSInput.arr [sampleNav, sampleClick1])).get
        ⟨0, by decide⟩).id = 0 + 1 :=
  ⟨claim_c10_degenerate_and_ids.1 5,
   claim_c10_degenerate_and_ids.2.1 5,
   claim_c10_degenerate_and_ids.2.2 0 [sampleNav, sampleClick1] 0 (by decide)⟩

end PWF

